import Mathlib

set_option maxRecDepth 4000

/-!
Shallow embedding of `src/main.py` (a FastAPI contact-form backend) and
proofs about it.  Pure helpers become Lean functions; the external
collaborators (SMTP transport, Google Sheets API, the process environment
and the wall clock) become explicit parameters / oracles, and the
side-effecting functions return the trace of external calls they issue.
-/

namespace OmkarContact

/-! ### Python string primitives used by the code -/

/-- Whitespace characters recognised by Python `str.strip()` (ASCII part). -/
def isPySpace (c : Char) : Bool :=
  c = ' ' || c = '\t' || c = '\n' || c = '\r' || c = '\x0b' || c = '\x0c'

/-- Python `str.strip()`: drop leading and trailing whitespace. -/
def pystrip (s : String) : String :=
  String.mk (((s.data.dropWhile isPySpace).reverse.dropWhile isPySpace).reverse)

/-- ASCII lower-casing of one character (Python `str.lower()` restricted to
ASCII, which covers every header title the code compares). -/
def lowerChar (c : Char) : Char :=
  if 'A' ≤ c && c ≤ 'Z' then Char.ofNat (c.toNat + 32) else c

/-- Python `str.lower()` (ASCII fragment). -/
def strLower (s : String) : String :=
  String.mk (s.data.map lowerChar)

/-- Left-to-right, non-overlapping replacement of `pat` by `rep`, with a
fuel argument that makes the recursion structural (any `fuel ≥ l.length`
reaches the fixpoint when `pat` is non-empty). -/
def replaceFuel (pat rep : List Char) : Nat → List Char → List Char
  | 0, l => l
  | fuel + 1, l =>
    match l with
    | [] => []
    | c :: rest =>
      if pat.isPrefixOf l then rep ++ replaceFuel pat rep fuel (l.drop pat.length)
      else c :: replaceFuel pat rep fuel rest

/-- Python `str.replace(pattern, replacement)` for a non-empty pattern
(the only way the code uses it). -/
def pyReplace (s pattern replacement : String) : String :=
  String.mk (replaceFuel pattern.data replacement.data s.data.length s.data)

/-- A Python value that can sit in the enriched-submission dict or in a sheet
cell: either a `str` or `None`.  `fstr` is how an f-string renders it. -/
inductive PyVal where
  | str (s : String)
  | none
deriving DecidableEq, Repr

/-- Rendering of a `PyVal` inside a Python f-string: `None` prints as the
four characters `None`. -/
def PyVal.fstr : PyVal → String
  | .str s => s
  | .none => "None"

/-! ### `ContactForm` (src/main.py lines 33-44)

```python
class ContactForm(BaseModel):
    name: str = Field(min_length=2, max_length=200)
    email: EmailStr
    message: str = Field(min_length=5, max_length=5000)
    phone: Optional[str] = Field(default=None, max_length=50)

    @field_validator("name", "message", "phone", mode="before")
    def strip_whitespace(cls, value): ...
```

The pydantic machinery itself is library code: we embed its observable
behaviour on a JSON object whose `name`/`email`/`message` members are
strings and whose `phone` member is a string or absent/null.  `EmailStr`
delegates to the external `email-validator` library, which we abstract as
a parameter `emailOk : String → Bool`.  Pydantic collects one structured
error (location, message) per offending field, in field declaration
order. -/

/-- The raw field values of a JSON-object request body. -/
structure RawForm where
  name : String
  email : String
  message : String
  phone : Option String
deriving DecidableEq, Repr

/-- One structured validation error: field path and message. -/
structure FieldError where
  loc : String
  msg : String
deriving DecidableEq, Repr

/-- A successfully validated submission. -/
structure ContactForm where
  name : String
  email : String
  message : String
  phone : Option String
deriving DecidableEq, Repr

/-- Errors contributed by the `name` field: the `mode="before"` hook strips
whitespace, then `min_length=2, max_length=200` are checked. -/
def nameErrors (name : String) : List FieldError :=
  if name.length < 2 then [⟨"name", "String should have at least 2 characters"⟩]
  else if name.length > 200 then [⟨"name", "String should have at most 200 characters"⟩]
  else []

/-- Errors contributed by the `message` field (stripped, then length in
[5, 5000]). -/
def messageErrors (message : String) : List FieldError :=
  if message.length < 5 then [⟨"message", "String should have at least 5 characters"⟩]
  else if message.length > 5000 then [⟨"message", "String should have at most 5000 characters"⟩]
  else []

/-- Errors contributed by the optional `phone` field (stripped, then
`max_length=50`; an absent/null phone is valid and stays `None`). -/
def phoneErrors (phone : Option String) : List FieldError :=
  match phone with
  | some p => if p.length > 50 then [⟨"phone", "String should have at most 50 characters"⟩] else []
  | none => []

/-- Errors contributed by the `email` field (`EmailStr` syntax check,
abstracted as `emailOk`). -/
def emailErrors (emailOk : String → Bool) (email : String) : List FieldError :=
  if emailOk email then [] else [⟨"email", "value is not a valid email address"⟩]

/-- The full list of structured field errors pydantic collects for one
model construction: one entry per offending field, in field declaration
order `name, email, message, phone`, with `name`/`message`/`phone` stripped
by the before-mode hook first. -/
def formErrors (emailOk : String → Bool) (r : RawForm) : List FieldError :=
  nameErrors (pystrip r.name) ++ emailErrors emailOk r.email ++
    messageErrors (pystrip r.message) ++ phoneErrors (r.phone.map pystrip)

/-- `ContactForm(**body)`: strip `name`/`message`/`phone` via the before-mode
hook, check every field constraint, and either return the validated model or
raise `ValidationError` carrying the structured field errors. -/
def validateForm (emailOk : String → Bool) (r : RawForm) : Except (List FieldError) ContactForm :=
  if formErrors emailOk r = [] then
    Except.ok ⟨pystrip r.name, r.email, pystrip r.message, r.phone.map pystrip⟩
  else Except.error (formErrors emailOk r)

/-! ### Timestamp formatter (src/main.py lines 48-51)

```python
def format_ist_timestamp() -> str:
    dt = datetime.now(pytz.timezone('Asia/Kolkata'))
    return dt.strftime("%d-%m-%Y %I:%M:%S %p")
```

`datetime` / `pytz` are library code.  Modelled from the spec: the wall
clock is a UTC instant `now` (seconds since the Unix epoch) plus the host
process zone offset `hostUtcOffset`; `datetime.now(tz)` with an explicit
`tz` converts the instant using that zone's offset (Asia/Kolkata is a
fixed +05:30 = 19800 s) and never consults the host zone, while a naive
`datetime.now()` would use `hostUtcOffset`.  `strftime` is embedded for
the one pattern the code uses. -/

/-- The external wall clock: the current UTC instant and the host process
time zone (which the code never consults, since it passes an explicit
zone). -/
structure Clock where
  now : Nat
  hostUtcOffset : Int
deriving DecidableEq, Repr

/-- Civil date-time components, as produced by `datetime`. -/
structure PyDateTime where
  year : Nat
  month : Nat
  day : Nat
  hour : Nat
  minute : Nat
  second : Nat
deriving DecidableEq, Repr

/-- Gregorian leap-year test. -/
def isLeap (y : Nat) : Bool :=
  (y % 4 = 0 && y % 100 ≠ 0) || y % 400 = 0

/-- Days in a Gregorian year. -/
def daysInYear (y : Nat) : Nat :=
  if isLeap y then 366 else 365

/-- Month lengths of a Gregorian year, January first. -/
def monthLengths (y : Nat) : List Nat :=
  [31, if isLeap y then 29 else 28, 31, 30, 31, 30, 31, 31, 30, 31, 30, 31]

/-- Walk forward from a base year, consuming whole years from a day count.
`fuel ≥ d` guarantees the walk reaches its fixpoint. -/
def yearAndDoy : Nat → Nat → Nat → Nat × Nat
  | 0, y, d => (y, d)
  | fuel + 1, y, d =>
    if d < daysInYear y then (y, d) else yearAndDoy fuel (y + 1) (d - daysInYear y)

/-- Walk through a list of month lengths, consuming whole months from a
day-of-year count. -/
def monthAndDom : List Nat → Nat → Nat → Nat × Nat
  | [], m, d => (m, d)
  | len :: rest, m, d =>
    if d < len then (m, d) else monthAndDom rest (m + 1) (d - len)

/-- Civil (year, month, day) of a day count since 1970-01-01. -/
def civilFromDays (days : Nat) : Nat × Nat × Nat :=
  let yd := yearAndDoy days 1970 days
  let md := monthAndDom (monthLengths yd.1) 1 yd.2
  (yd.1, md.1, md.2 + 1)

/-- `datetime.now(tz)` for a fixed-offset zone: the civil components of the
instant shifted by `offset` seconds. -/
def datetimeInZone (t : Nat) (offset : Nat) : PyDateTime :=
  let shifted := t + offset
  let secOfDay := shifted % 86400
  let ymd := civilFromDays (shifted / 86400)
  ⟨ymd.1, ymd.2.1, ymd.2.2, secOfDay / 3600, secOfDay % 3600 / 60, secOfDay % 60⟩

/-- The decimal digit character for `n % 10`. -/
def digitChar (n : Nat) : Char :=
  Char.ofNat (48 + n % 10)

/-- Two-digit zero-padded rendering (`%d`, `%m`, `%I`, `%M`, `%S`). -/
def pad2 (n : Nat) : String :=
  String.mk [digitChar (n / 10), digitChar n]

/-- Four-digit zero-padded rendering (`%Y`, faithful for years ≤ 9999). -/
def pad4 (n : Nat) : String :=
  String.mk [digitChar (n / 1000), digitChar (n / 100), digitChar (n / 10), digitChar n]

/-- `%I`: hour on a 12-hour clock, 12 for 0. -/
def hour12 (hour : Nat) : Nat :=
  if hour % 12 = 0 then 12 else hour % 12

/-- `%p`: AM for hours 0-11, PM for 12-23. -/
def ampm (hour : Nat) : String :=
  if hour < 12 then "AM" else "PM"

/-- `dt.strftime("%d-%m-%Y %I:%M:%S %p")`. -/
def strftimeDMY12 (dt : PyDateTime) : String :=
  pad2 dt.day ++ "-" ++ pad2 dt.month ++ "-" ++ pad4 dt.year ++ " " ++
    pad2 (hour12 dt.hour) ++ ":" ++ pad2 dt.minute ++ ":" ++ pad2 dt.second ++
    " " ++ ampm dt.hour

/-- `format_ist_timestamp()`: render the clock's current instant in the
Asia/Kolkata zone (+19800 s).  The host zone `c.hostUtcOffset` is never
read, exactly as the source passes an explicit `pytz` zone. -/
def format_ist_timestamp (c : Clock) : String :=
  strftimeDMY12 (datetimeInZone c.now 19800)

/-- Decimal digit test on a character. -/
def isDigitChar (c : Char) : Bool :=
  '0' ≤ c && c ≤ '9'

/-- Recogniser for the fixed output shape `DD-MM-YYYY hh:mm:ss AM/PM`:
22 characters, zero-padded decimal components, `-`/`:`/space separators,
and an `AM` or `PM` suffix. -/
def matchesTimestampPattern (s : String) : Bool :=
  match s.data with
  | [d1, d2, u1, m1, m2, u2, y1, y2, y3, y4, w1, h1, h2, k1, n1, n2, k2, e1, e2, w2, p1, p2] =>
    isDigitChar d1 && isDigitChar d2 && u1 = '-' && isDigitChar m1 && isDigitChar m2 &&
      u2 = '-' && isDigitChar y1 && isDigitChar y2 && isDigitChar y3 && isDigitChar y4 &&
      w1 = ' ' && isDigitChar h1 && isDigitChar h2 && k1 = ':' && isDigitChar n1 &&
      isDigitChar n2 && k2 = ':' && isDigitChar e1 && isDigitChar e2 && w2 = ' ' &&
      (p1 = 'A' || p1 = 'P') && p2 = 'M'
  | _ => false

/-! ### The enriched submission dict (src/main.py lines 200-202)

```python
data = form_data.model_dump()
data['ip'] = ...
data['userAgent'] = ...
```

`model_dump()` materialises every model field as a dict key, including
`phone` when its value is `None` (pydantic does not drop `None` fields by
default).  So the dict always carries the keys `name, email, message,
phone, ip, userAgent`, with `phone` possibly bound to `None` — which is
why `data.get('phone', default)` never returns its default. -/

/-- The dict handed to `send_email` and `append_to_sheet`. -/
structure EnrichedData where
  name : String
  email : String
  message : String
  phone : Option String
  ip : String
  userAgent : String
deriving DecidableEq, Repr

/-- `data.get('phone', default)`: the key is always present (put there by
`model_dump()`), so the default is never used and the result is the stored
value — `None` when the submission had no phone. -/
def EnrichedData.getPhone (d : EnrichedData) (dflt : PyVal) : PyVal :=
  match d.phone with
  | some p => PyVal.str p
  | none => PyVal.none

/-- Build the dict from a validated form plus the request-derived `ip` and
`userAgent` strings. -/
def enrich (f : ContactForm) (ip userAgent : String) : EnrichedData :=
  ⟨f.name, f.email, f.message, f.phone, ip, userAgent⟩

/-! ### `send_email` (src/main.py lines 152-181) -/

/-- The SMTP-related environment values (`os.getenv`, `None` when unset). -/
structure SmtpEnv where
  SMTP_USER : Option String
  SMTP_PASS : Option String
deriving DecidableEq, Repr

/-- Python truthiness of an optional string (`all([...])` treats `None` and
`""` as false). -/
def optTruthy : Option String → Bool
  | some s => s ≠ ""
  | none => false

/-- The HTML body built at src/main.py lines 169-176.  `data.get('phone',
'N/A')` goes through `EnrichedData.getPhone` because the `phone` key is
always present; an f-string renders a `None` value as `None`. -/
def send_email_html (d : EnrichedData) : String :=
  "<p><strong>Name:</strong> " ++ d.name ++ "</p>" ++
    "<p><strong>Email:</strong> " ++ d.email ++ "</p>" ++
    "<p><strong>Phone:</strong> " ++ (d.getPhone (PyVal.str "N/A")).fstr ++ "</p>" ++
    "<p><strong>Message:</strong><br/>" ++ pyReplace d.message "\n" "<br>" ++ "</p>" ++
    "<hr/>" ++
    "<p><small>IP: " ++ d.ip ++ " &middot; UA: " ++ d.userAgent ++ "</small></p>"

/-- `send_email(data)`: raises `ValueError` when the SMTP credentials are
not configured (Python truthiness), otherwise builds the message and
performs the SMTP session, whose outcome is the external `transport`
oracle (`Except.error` models any exception from connect / login / send).
On success the delivered HTML body is returned. -/
def send_email (smtp : SmtpEnv) (transport : Except String Unit)
    (d : EnrichedData) : Except String String :=
  if !(optTruthy smtp.SMTP_USER && optTruthy smtp.SMTP_PASS) then
    Except.error "SMTP credentials are not configured."
  else
    match transport with
    | Except.error e => Except.error e
    | Except.ok _ => Except.ok (send_email_html d)

/-! ### Google Sheets (src/main.py lines 53-149) -/

/-- One request inside the formatting `batchUpdate` body
(src/main.py lines 79-100): the `repeatCell` bold + background-shade
request on row 1, and the `updateSheetProperties` request freezing rows. -/
inductive BatchReq where
  | formatHeaderBoldShaded
  | freezeRows (count : Nat)
deriving DecidableEq, Repr

/-- One Sheets API call, with the payload the code sends. -/
inductive SheetCall where
  | valuesGet (range : String)
  | valuesUpdate (range : String) (vals : List (List String))
  | batchUpdate (reqs : List BatchReq)
  | valuesAppend (range : String) (vals : List (List PyVal))
deriving DecidableEq, Repr

/-- Oracle for the external Google API client: the outcome of each
operation the code may attempt.  `Except.error` models a raised
exception.  `getValues` yields the `'values'` member of the read response:
`none` when the key is absent (empty range), otherwise the list of rows. -/
structure SheetsOracle where
  creds : Except String Unit
  buildService : Except String Unit
  getValues : Except String (Option (List (List String)))
  update : Except String Unit
  batchUpd : Except String Unit
  append : Except String Unit

/-- The canonical header titles (src/main.py line 57). -/
def sheetHeaders : List String :=
  ["Timestamp", "Name", "Email", "Phone", "Message", "IP", "User Agent"]

/-- Lines 68-103: compare the existing first row case-insensitively with the
canonical titles; rewrite and format it when empty or different. -/
def ensure_sheet_header_afterRead (o : SheetsOracle) (existing : List String) :
    List SheetCall × Except String Unit :=
  if existing.isEmpty || existing.map strLower ≠ sheetHeaders.map strLower then
    match o.update with
    | Except.error e =>
      ([SheetCall.valuesGet "Sheet1!A1:G1",
        SheetCall.valuesUpdate "Sheet1!A1:G1" [sheetHeaders]], Except.error e)
    | Except.ok _ =>
      match o.batchUpd with
      | Except.error e =>
        ([SheetCall.valuesGet "Sheet1!A1:G1",
          SheetCall.valuesUpdate "Sheet1!A1:G1" [sheetHeaders],
          SheetCall.batchUpdate [BatchReq.formatHeaderBoldShaded, BatchReq.freezeRows 1]],
         Except.error e)
      | Except.ok _ =>
        ([SheetCall.valuesGet "Sheet1!A1:G1",
          SheetCall.valuesUpdate "Sheet1!A1:G1" [sheetHeaders],
          SheetCall.batchUpdate [BatchReq.formatHeaderBoldShaded, BatchReq.freezeRows 1]],
         Except.ok ())
  else
    ([SheetCall.valuesGet "Sheet1!A1:G1"], Except.ok ())

/-- The body of `ensure_sheet_header`'s `try` block: the calls it issues
and whether an exception escapes to the surrounding `except`.
Line 65 `result.get('values', [[]])[0]` indexes `[0]`: an absent
`'values'` key falls back to `[[]]` and yields `[]`, while a present but
empty list raises `IndexError`. -/
def ensure_sheet_header_try (o : SheetsOracle) : List SheetCall × Except String Unit :=
  match o.getValues with
  | Except.error e => ([SheetCall.valuesGet "Sheet1!A1:G1"], Except.error e)
  | Except.ok vopt =>
    match vopt with
    | none => ensure_sheet_header_afterRead o []
    | some [] => ([SheetCall.valuesGet "Sheet1!A1:G1"], Except.error "IndexError")
    | some (row :: _) => ensure_sheet_header_afterRead o row

/-- `ensure_sheet_header`: the `try` body wrapped in `except Exception`
(line 104), so no exception ever escapes; only the issued calls remain. -/
def ensure_sheet_header (o : SheetsOracle) : List SheetCall :=
  (ensure_sheet_header_try o).1

/-- The Sheets-related environment values. -/
structure SheetsEnv where
  GOOGLE_SHEET_ID : Option String
  GOOGLE_CLIENT_EMAIL : Option String
  GOOGLE_PRIVATE_KEY : Option String
  GOOGLE_PROJECT_ID : Option String
deriving DecidableEq, Repr

/-- Line 115 `all([sheet_id, client_email, private_key, project_id])` with
`private_key = os.getenv(..., "").replace('\\n', '\n')`. -/
def sheetsConfigured (env : SheetsEnv) : Bool :=
  optTruthy env.GOOGLE_SHEET_ID && optTruthy env.GOOGLE_CLIENT_EMAIL &&
    (pyReplace (env.GOOGLE_PRIVATE_KEY.getD "") "\\n" "\n" ≠ "") &&
    optTruthy env.GOOGLE_PROJECT_ID

/-- The row appended at lines 135-139.  Every `data.get` hits a present key
(`model_dump()` plus the two handler assignments), so the `''` defaults for
`phone`/`ip`/`userAgent` are dead and a missing phone contributes `None`. -/
def sheetRow (c : Clock) (d : EnrichedData) : List PyVal :=
  [PyVal.str (format_ist_timestamp c), PyVal.str d.name, PyVal.str d.email,
    d.getPhone (PyVal.str ""), PyVal.str d.message,
    PyVal.str d.ip, PyVal.str d.userAgent]

/-- The body of `append_to_sheet`'s `try` block (lines 119-147): build
credentials and the service, ensure the header, then append the data row. -/
def append_to_sheet_try (c : Clock) (o : SheetsOracle) (d : EnrichedData) :
    List SheetCall × Except String Unit :=
  match o.creds with
  | Except.error e => ([], Except.error e)
  | Except.ok _ =>
    match o.buildService with
    | Except.error e => ([], Except.error e)
    | Except.ok _ =>
      let ensured := ensure_sheet_header o
      match o.append with
      | Except.error e =>
        (ensured ++ [SheetCall.valuesAppend "Sheet1!A1" [sheetRow c d]], Except.error e)
      | Except.ok _ =>
        (ensured ++ [SheetCall.valuesAppend "Sheet1!A1" [sheetRow c d]], Except.ok ())

/-- `append_to_sheet(data)`: no-op when the four configuration values are
not all truthy (lines 110-117); otherwise run the `try` body, whose
exceptions are swallowed by `except Exception` at line 148 — the function
never raises, only a call trace remains. -/
def append_to_sheet (c : Clock) (env : SheetsEnv) (o : SheetsOracle)
    (d : EnrichedData) : List SheetCall :=
  if !sheetsConfigured env then []
  else (append_to_sheet_try c o d).1

/-! ### The request handler (src/main.py lines 184-213) -/

/-- One external call made while handling a request: the `send_email`
invocation or a Sheets API call. -/
inductive ExtCall where
  | emailSend
  | sheet (call : SheetCall)
deriving DecidableEq, Repr

/-- The response envelope the handler produces. -/
inductive Response where
  | success (message : String)
  | fieldErrors (errors : List FieldError)
  | badRequest (error : String)
  | serverError (error : String)
deriving DecidableEq, Repr

/-- HTTP status code of a response. -/
def Response.status : Response → Nat
  | .success _ => 200
  | .fieldErrors _ => 422
  | .badRequest _ => 400
  | .serverError _ => 500

/-- The `ok` member of the response body. -/
def Response.okField : Response → Bool
  | .success _ => true
  | _ => false

/-- The shape of the request body: `await request.json()` raised
(`notJson`), it parsed but `ContactForm(**body)` raised a non-pydantic
error because the value is not an object (`notObject`), or it is an object
carrying the four field values. -/
inductive ReqBody where
  | notJson
  | notObject
  | obj (r : RawForm)
deriving DecidableEq, Repr

/-- `handle_contact_form`: parse, validate, enrich, then the protected
block of lines 204-213 — `send_email` first, `append_to_sheet` second, 200
on success; any exception in the block yields a 500.  Returns the response
and the trace of external calls issued. -/
def handle_contact_form (emailOk : String → Bool) (c : Clock) (body : ReqBody)
    (ip userAgent : String) (smtp : SmtpEnv) (transport : Except String Unit)
    (senv : SheetsEnv) (o : SheetsOracle) : Response × List ExtCall :=
  match body with
  | ReqBody.notJson => (Response.badRequest "Invalid request body.", [])
  | ReqBody.notObject => (Response.badRequest "Invalid request body.", [])
  | ReqBody.obj r =>
    match validateForm emailOk r with
    | Except.error errs => (Response.fieldErrors errs, [])
    | Except.ok form =>
      let d := enrich form ip userAgent
      match send_email smtp transport d with
      | Except.error _ => (Response.serverError "Failed to send message.", [ExtCall.emailSend])
      | Except.ok _ =>
        (Response.success "Message sent successfully!",
          ExtCall.emailSend :: (append_to_sheet c senv o d).map ExtCall.sheet)

/-! ## Helper lemmas -/

theorem nameErrors_nil (n : String) (h1 : 2 ≤ n.length) (h2 : n.length ≤ 200) :
    nameErrors n = [] := by
  unfold nameErrors
  rw [if_neg (by omega), if_neg (by omega)]

theorem messageErrors_nil (m : String) (h1 : 5 ≤ m.length) (h2 : m.length ≤ 5000) :
    messageErrors m = [] := by
  unfold messageErrors
  rw [if_neg (by omega), if_neg (by omega)]

theorem emailErrors_nil (f : String → Bool) (e : String) (h : f e = true) :
    emailErrors f e = [] := by
  unfold emailErrors
  rw [if_pos h]

theorem phoneErrors_nil (p : Option String) (h : ∀ s, p = some s → s.length ≤ 50) :
    phoneErrors p = [] := by
  cases p with
  | none => rfl
  | some s =>
    have hs := h s rfl
    simp only [phoneErrors]
    rw [if_neg (by omega)]

theorem nameErrors_locs (n : String) :
    (nameErrors n).map FieldError.loc =
      if n.length < 2 ∨ n.length > 200 then ["name"] else [] := by
  unfold nameErrors
  split_ifs <;> simp_all <;> omega

theorem messageErrors_locs (m : String) :
    (messageErrors m).map FieldError.loc =
      if m.length < 5 ∨ m.length > 5000 then ["message"] else [] := by
  unfold messageErrors
  split_ifs <;> simp_all <;> omega

theorem emailErrors_locs (f : String → Bool) (e : String) :
    (emailErrors f e).map FieldError.loc = if f e = false then ["email"] else [] := by
  unfold emailErrors
  cases h : f e <;> simp [h]

theorem phoneErrors_locs (p : Option String) :
    (phoneErrors (p.map pystrip)).map FieldError.loc =
      match p with
      | some s => if (pystrip s).length > 50 then ["phone"] else []
      | none => [] := by
  cases p with
  | none => rfl
  | some s =>
    simp only [Option.map, phoneErrors]
    split_ifs <;> simp_all

/-- `validateForm` consults its email predicate only on the submitted email
address. -/
theorem validateForm_email_congr (f g : String → Bool) (r : RawForm)
    (h : f r.email = g r.email) : validateForm f r = validateForm g r := by
  unfold validateForm formErrors emailErrors
  rw [h]

/-! ## Claims -/

/-- **C3** — For every input object where `name` (after trimming
surrounding whitespace) has length in [2, 200], `email` passes the email
syntax check, `message` (after trimming) has length in [5, 5000], and
`phone` is either absent/null or (after trimming) has length at most 50,
the validator accepts and returns a record whose `name`, `message` and
`phone` fields are the whitespace-trimmed values. -/
theorem valid_input_accepted (emailOk : String → Bool) (r : RawForm)
    (hn1 : 2 ≤ (pystrip r.name).length) (hn2 : (pystrip r.name).length ≤ 200)
    (he : emailOk r.email = true)
    (hm1 : 5 ≤ (pystrip r.message).length) (hm2 : (pystrip r.message).length ≤ 5000)
    (hp : ∀ p, r.phone = some p → (pystrip p).length ≤ 50) :
    validateForm emailOk r =
      Except.ok ⟨pystrip r.name, r.email, pystrip r.message, r.phone.map pystrip⟩ := by
  have hphone : ∀ s, r.phone.map pystrip = some s → s.length ≤ 50 := by
    intro s hs
    cases hr : r.phone with
    | none => rw [hr] at hs; exact absurd hs (by simp)
    | some p =>
      rw [hr] at hs
      simp only [Option.map, Option.some.injEq] at hs
      exact hs ▸ hp p hr
  have herrs : formErrors emailOk r = [] := by
    unfold formErrors
    rw [nameErrors_nil _ hn1 hn2, emailErrors_nil _ _ he, messageErrors_nil _ hm1 hm2,
      phoneErrors_nil _ hphone]
    rfl
  unfold validateForm
  rw [if_pos herrs]

/-- Witness for C3 at a concrete input with surrounding whitespace on
every trimmable field. -/
theorem valid_input_accepted_witness :
    validateForm (fun s => s.length ≥ 6) ⟨"  Jo Doe ", "jo@example.com", " Hello there  ", some " 123 "⟩ =
      Except.ok ⟨"Jo Doe", "jo@example.com", "Hello there", some "123"⟩ :=
  valid_input_accepted (fun s => s.length ≥ 6) ⟨"  Jo Doe ", "jo@example.com", " Hello there  ", some " 123 "⟩
    (by decide) (by decide) (by decide) (by decide) (by decide) (by decide)

/-- **C10** — An input whose `phone` member is present but empty or
whitespace-only is accepted (given the other fields are valid): the phone
is normalised to the empty string, not rejected and not treated as
absent/null; consequently the value interpolated at the phone position of
the e-mail body is the empty string, not the `N/A` placeholder. -/
theorem whitespace_phone_normalised_to_empty (emailOk : String → Bool) (r : RawForm)
    (p ip ua : String)
    (hn1 : 2 ≤ (pystrip r.name).length) (hn2 : (pystrip r.name).length ≤ 200)
    (he : emailOk r.email = true)
    (hm1 : 5 ≤ (pystrip r.message).length) (hm2 : (pystrip r.message).length ≤ 5000)
    (hphone : r.phone = some p) (hws : p.data.all isPySpace = true) :
    validateForm emailOk r =
      Except.ok ⟨pystrip r.name, r.email, pystrip r.message, some ""⟩ ∧
    ((enrich ⟨pystrip r.name, r.email, pystrip r.message, some ""⟩ ip ua).getPhone
        (PyVal.str "N/A")).fstr = "" := by
  have hstrip : pystrip p = "" := by
    unfold pystrip
    have : p.data.dropWhile isPySpace = [] := by
      rw [List.dropWhile_eq_nil_iff]
      intro x hx
      exact List.all_eq_true.mp hws x hx
    rw [this]
    rfl
  have hp : ∀ q, r.phone = some q → (pystrip q).length ≤ 50 := by
    intro q hq
    rw [hphone] at hq
    cases hq
    rw [hstrip]
    decide
  have := valid_input_accepted emailOk r hn1 hn2 he hm1 hm2 hp
  rw [hphone] at this
  simp only [Option.map, hstrip] at this
  exact ⟨this, rfl⟩

/-- Witness for C10: `phone = "   "` is accepted and rendered as the empty
string. -/
theorem whitespace_phone_normalised_to_empty_witness :
    validateForm (fun s => s.length ≥ 6) ⟨"Jo Doe", "jo@example.com", "Hello there", some "   "⟩ =
      Except.ok ⟨"Jo Doe", "jo@example.com", "Hello there", some ""⟩ ∧
    ((enrich ⟨"Jo Doe", "jo@example.com", "Hello there", some ""⟩ "1.2.3.4" "curl").getPhone
        (PyVal.str "N/A")).fstr = "" :=
  whitespace_phone_normalised_to_empty (fun s => s.length ≥ 6)
    ⟨"Jo Doe", "jo@example.com", "Hello there", some "   "⟩ "   " "1.2.3.4" "curl"
    (by decide) (by decide) (by decide) (by decide) (by decide) rfl (by decide)

/-- **C4** — Whenever the (trimmed) `name` length is outside [2, 200], or
the (trimmed) `message` length is outside [5, 5000], or the email fails
the syntax check, the validator rejects and the handler responds HTTP 422
with exactly one structured error entry per offending field (named by its
field path) and none for a non-offending field; in particular the body
`{name:"J", email:"bad", message:"hi"}` yields exactly three field errors
for `name`, `email` and `message`. -/
theorem invalid_input_rejected_per_field (emailOk : String → Bool) (c : Clock)
    (ip ua : String) (smtp : SmtpEnv) (transport : Except String Unit)
    (senv : SheetsEnv) (o : SheetsOracle) (r : RawForm)
    (hoff : (pystrip r.name).length < 2 ∨ (pystrip r.name).length > 200 ∨
      emailOk r.email = false ∨
      (pystrip r.message).length < 5 ∨ (pystrip r.message).length > 5000)
    (hbad : emailOk "bad" = false) :
    (∃ errs, handle_contact_form emailOk c (ReqBody.obj r) ip ua smtp transport senv o =
        (Response.fieldErrors errs, []) ∧
      (Response.fieldErrors errs).status = 422 ∧
      errs.map FieldError.loc =
        (if (pystrip r.name).length < 2 ∨ (pystrip r.name).length > 200 then ["name"] else []) ++
        (if emailOk r.email = false then ["email"] else []) ++
        (if (pystrip r.message).length < 5 ∨ (pystrip r.message).length > 5000 then ["message"] else []) ++
        (match r.phone with
          | some p => if (pystrip p).length > 50 then ["phone"] else []
          | none => [])) ∧
    (∃ e1 e2 e3,
      handle_contact_form emailOk c (ReqBody.obj ⟨"J", "bad", "hi", none⟩) ip ua smtp transport senv o =
        (Response.fieldErrors [e1, e2, e3], []) ∧
      e1.loc = "name" ∧ e2.loc = "email" ∧ e3.loc = "message") := by
  have locEq : (formErrors emailOk r).map FieldError.loc =
      (if (pystrip r.name).length < 2 ∨ (pystrip r.name).length > 200 then ["name"] else []) ++
      (if emailOk r.email = false then ["email"] else []) ++
      (if (pystrip r.message).length < 5 ∨ (pystrip r.message).length > 5000 then ["message"] else []) ++
      (match r.phone with
        | some p => if (pystrip p).length > 50 then ["phone"] else []
        | none => []) := by
    unfold formErrors
    rw [List.map_append, List.map_append, List.map_append,
      nameErrors_locs, emailErrors_locs, messageErrors_locs, phoneErrors_locs]
  have hne : formErrors emailOk r ≠ [] := by
    intro hnil
    have : (formErrors emailOk r).map FieldError.loc = [] := by rw [hnil]; rfl
    rw [locEq] at this
    rcases hoff with h | h | h | h | h <;>
      simp [h, List.append_eq_nil] at this <;> omega
  constructor
  · refine ⟨formErrors emailOk r, ?_, rfl, locEq⟩
    have hv : validateForm emailOk r = Except.error (formErrors emailOk r) := by
      unfold validateForm
      rw [if_neg hne]
    simp [handle_contact_form, hv]
  · have hv2 : validateForm emailOk ⟨"J", "bad", "hi", none⟩ =
        Except.error [⟨"name", "String should have at least 2 characters"⟩,
          ⟨"email", "value is not a valid email address"⟩,
          ⟨"message", "String should have at least 5 characters"⟩] := by
      rw [validateForm_email_congr emailOk (fun _ => false) _ hbad]
      rfl
    refine ⟨⟨"name", "String should have at least 2 characters"⟩,
      ⟨"email", "value is not a valid email address"⟩,
      ⟨"message", "String should have at least 5 characters"⟩, ?_, rfl, rfl, rfl⟩
    simp [handle_contact_form, hv2]

/-- Witness for C4 with a concrete email predicate and the concrete
offending body from the spec. -/
theorem invalid_input_rejected_per_field_witness :
    (∃ errs, handle_contact_form (fun s => s.length ≥ 6) ⟨0, 0⟩
        (ReqBody.obj ⟨"J", "bad", "hi", none⟩) "1.2.3.4" "curl" ⟨some "u", some "p"⟩
        (Except.ok ()) ⟨none, none, none, none⟩
        ⟨Except.ok (), Except.ok (), Except.ok none, Except.ok (), Except.ok (), Except.ok ()⟩ =
        (Response.fieldErrors errs, []) ∧
      (Response.fieldErrors errs).status = 422 ∧
      errs.map FieldError.loc =
        (if (pystrip "J").length < 2 ∨ (pystrip "J").length > 200 then ["name"] else []) ++
        (if (fun s : String => s.length ≥ 6) "bad" = false then ["email"] else []) ++
        (if (pystrip "hi").length < 5 ∨ (pystrip "hi").length > 5000 then ["message"] else []) ++
        (match (none : Option String) with
          | some p => if (pystrip p).length > 50 then ["phone"] else []
          | none => [])) ∧
    (∃ e1 e2 e3,
      handle_contact_form (fun s => s.length ≥ 6) ⟨0, 0⟩
        (ReqBody.obj ⟨"J", "bad", "hi", none⟩) "1.2.3.4" "curl" ⟨some "u", some "p"⟩
        (Except.ok ()) ⟨none, none, none, none⟩
        ⟨Except.ok (), Except.ok (), Except.ok none, Except.ok (), Except.ok (), Except.ok ()⟩ =
        (Response.fieldErrors [e1, e2, e3], []) ∧
      e1.loc = "name" ∧ e2.loc = "email" ∧ e3.loc = "message") :=
  invalid_input_rejected_per_field (fun s => s.length ≥ 6) ⟨0, 0⟩ "1.2.3.4" "curl"
    ⟨some "u", some "p"⟩ (Except.ok ()) ⟨none, none, none, none⟩
    ⟨Except.ok (), Except.ok (), Except.ok none, Except.ok (), Except.ok (), Except.ok ()⟩
    ⟨"J", "bad", "hi", none⟩ (Or.inl (by decide)) (by decide)

/-- `"".replace` is the empty string (used when the private-key variable is
unset and `os.getenv(..., "")` supplies the empty default). -/
theorem replace_empty_newlines : pyReplace "" "\\n" "\n" = "" := rfl

/-- **C1** — For every request whose body parses and validates, if
`send_email` raises any exception, the ledger append is never invoked for
that request (the trace holds no Sheets call at all), and the handler
responds HTTP 500 with `{ok: false, error: "Failed to send message."}`. -/
theorem email_failure_skips_ledger (emailOk : String → Bool) (c : Clock)
    (r : RawForm) (form : ContactForm) (ip ua : String) (smtp : SmtpEnv)
    (transport : Except String Unit) (senv : SheetsEnv) (o : SheetsOracle) (e : String)
    (hval : validateForm emailOk r = Except.ok form)
    (hfail : send_email smtp transport (enrich form ip ua) = Except.error e) :
    handle_contact_form emailOk c (ReqBody.obj r) ip ua smtp transport senv o =
      (Response.serverError "Failed to send message.", [ExtCall.emailSend]) ∧
    (Response.serverError "Failed to send message.").status = 500 ∧
    (Response.serverError "Failed to send message.").okField = false ∧
    ∀ call, ExtCall.sheet call ∉ [ExtCall.emailSend] := by
  refine ⟨?_, rfl, rfl, by simp⟩
  simp [handle_contact_form, hval, hfail]

/-- Witness for C1: unconfigured SMTP credentials make `send_email` raise,
the response is the 500 envelope and no Sheets call happens. -/
theorem email_failure_skips_ledger_witness :
    handle_contact_form (fun s => s.length ≥ 6) ⟨0, 0⟩
      (ReqBody.obj ⟨"Jo Doe", "jo@example.com", "Hello there", none⟩) "1.2.3.4" "curl"
      ⟨none, none⟩ (Except.ok ()) ⟨some "id", some "ce", some "pk", some "pid"⟩
      ⟨Except.ok (), Except.ok (), Except.ok none, Except.ok (), Except.ok (), Except.ok ()⟩ =
      (Response.serverError "Failed to send message.", [ExtCall.emailSend]) ∧
    (Response.serverError "Failed to send message.").status = 500 ∧
    (Response.serverError "Failed to send message.").okField = false ∧
    ∀ call, ExtCall.sheet call ∉ [ExtCall.emailSend] :=
  email_failure_skips_ledger (fun s => s.length ≥ 6) ⟨0, 0⟩
    ⟨"Jo Doe", "jo@example.com", "Hello there", none⟩
    ⟨"Jo Doe", "jo@example.com", "Hello there", none⟩ "1.2.3.4" "curl"
    ⟨none, none⟩ (Except.ok ()) ⟨some "id", some "ce", some "pk", some "pid"⟩
    ⟨Except.ok (), Except.ok (), Except.ok none, Except.ok (), Except.ok (), Except.ok ()⟩
    "SMTP credentials are not configured." rfl rfl

/-- **C2** — `append_to_sheet` never raises to the handler (structurally,
it returns only its call trace: every exception of the `try` bodies at
src/main.py lines 58-105 and 119-149 is swallowed), so whenever the email
send succeeds the handler responds HTTP 200
`{ok: true, message: "Message sent successfully!"}` — for *every* Sheets
oracle, including ones whose operations all raise. -/
theorem ledger_failure_never_surfaces (emailOk : String → Bool) (c : Clock)
    (r : RawForm) (form : ContactForm) (ip ua : String) (smtp : SmtpEnv)
    (transport : Except String Unit) (senv : SheetsEnv) (o : SheetsOracle) (html : String)
    (hval : validateForm emailOk r = Except.ok form)
    (hsend : send_email smtp transport (enrich form ip ua) = Except.ok html) :
    (handle_contact_form emailOk c (ReqBody.obj r) ip ua smtp transport senv o).1 =
      Response.success "Message sent successfully!" ∧
    (Response.success "Message sent successfully!").status = 200 ∧
    (Response.success "Message sent successfully!").okField = true := by
  refine ⟨?_, rfl, rfl⟩
  simp [handle_contact_form, hval, hsend]

/-- Witness for C2: an oracle whose every Sheets operation raises still
lets the handler answer 200. -/
theorem ledger_failure_never_surfaces_witness :
    (handle_contact_form (fun s => s.length ≥ 6) ⟨0, 0⟩
      (ReqBody.obj ⟨"Jo Doe", "jo@example.com", "Hello there", none⟩) "1.2.3.4" "curl"
      ⟨some "user", some "pass"⟩ (Except.ok ()) ⟨some "id", some "ce", some "pk", some "pid"⟩
      ⟨Except.error "boom", Except.error "boom", Except.error "boom",
        Except.error "boom", Except.error "boom", Except.error "boom"⟩).1 =
      Response.success "Message sent successfully!" ∧
    (Response.success "Message sent successfully!").status = 200 ∧
    (Response.success "Message sent successfully!").okField = true :=
  ledger_failure_never_surfaces (fun s => s.length ≥ 6) ⟨0, 0⟩
    ⟨"Jo Doe", "jo@example.com", "Hello there", none⟩
    ⟨"Jo Doe", "jo@example.com", "Hello there", none⟩ "1.2.3.4" "curl"
    ⟨some "user", some "pass"⟩ (Except.ok ()) ⟨some "id", some "ce", some "pk", some "pid"⟩
    ⟨Except.error "boom", Except.error "boom", Except.error "boom",
      Except.error "boom", Except.error "boom", Except.error "boom"⟩
    (send_email_html (enrich ⟨"Jo Doe", "jo@example.com", "Hello there", none⟩ "1.2.3.4" "curl"))
    rfl rfl

/-- **C7** — If any of the four ledger configuration values is absent,
`append_to_sheet` returns without issuing a single spreadsheet call (and,
being a total function into a call trace, without raising). -/
theorem missing_sheets_config_noop (c : Clock) (env : SheetsEnv) (o : SheetsOracle)
    (d : EnrichedData)
    (h : env.GOOGLE_SHEET_ID = none ∨ env.GOOGLE_CLIENT_EMAIL = none ∨
      env.GOOGLE_PRIVATE_KEY = none ∨ env.GOOGLE_PROJECT_ID = none) :
    append_to_sheet c env o d = [] := by
  have hcfg : sheetsConfigured env = false := by
    rcases h with h | h | h | h <;>
      simp [sheetsConfigured, optTruthy, h, replace_empty_newlines]
  simp [append_to_sheet, hcfg]

/-- Witness for C7: only the private key is missing, everything else is
configured and the oracle would succeed, yet no call is issued. -/
theorem missing_sheets_config_noop_witness :
    append_to_sheet ⟨0, 0⟩ ⟨some "id", some "ce", none, some "pid"⟩
      ⟨Except.ok (), Except.ok (), Except.ok none, Except.ok (), Except.ok (), Except.ok ()⟩
      ⟨"Jo Doe", "jo@example.com", "Hello there", none, "1.2.3.4", "curl"⟩ = [] :=
  missing_sheets_config_noop ⟨0, 0⟩ ⟨some "id", some "ce", none, some "pid"⟩
    ⟨Except.ok (), Except.ok (), Except.ok none, Except.ok (), Except.ok (), Except.ok ()⟩
    ⟨"Jo Doe", "jo@example.com", "Hello there", none, "1.2.3.4", "curl"⟩
    (Or.inr (Or.inr (Or.inl rfl)))

/-- **C8** — A request body that is unparseable as JSON, or parseable but
not an object, makes the handler respond HTTP 400 with the single generic
message `"Invalid request body."`, no field-level detail, and an empty
external-call trace. -/
theorem malformed_body_400 (emailOk : String → Bool) (c : Clock) (ip ua : String)
    (smtp : SmtpEnv) (transport : Except String Unit) (senv : SheetsEnv)
    (o : SheetsOracle) (body : ReqBody)
    (h : body = ReqBody.notJson ∨ body = ReqBody.notObject) :
    handle_contact_form emailOk c body ip ua smtp transport senv o =
      (Response.badRequest "Invalid request body.", []) ∧
    (Response.badRequest "Invalid request body.").status = 400 ∧
    (Response.badRequest "Invalid request body.").okField = false := by
  rcases h with h | h <;> subst h <;> exact ⟨rfl, rfl, rfl⟩

/-- Witness for C8 on a body that failed JSON parsing. -/
theorem malformed_body_400_witness :
    handle_contact_form (fun s => s.length ≥ 6) ⟨0, 0⟩ ReqBody.notJson "1.2.3.4" "curl"
      ⟨some "user", some "pass"⟩ (Except.ok ()) ⟨some "id", some "ce", some "pk", some "pid"⟩
      ⟨Except.ok (), Except.ok (), Except.ok none, Except.ok (), Except.ok (), Except.ok ()⟩ =
      (Response.badRequest "Invalid request body.", []) ∧
    (Response.badRequest "Invalid request body.").status = 400 ∧
    (Response.badRequest "Invalid request body.").okField = false :=
  malformed_body_400 (fun s => s.length ≥ 6) ⟨0, 0⟩ "1.2.3.4" "curl"
    ⟨some "user", some "pass"⟩ (Except.ok ()) ⟨some "id", some "ce", some "pk", some "pid"⟩
    ⟨Except.ok (), Except.ok (), Except.ok none, Except.ok (), Except.ok (), Except.ok ()⟩
    ReqBody.notJson (Or.inl rfl)

/-- **C5** (refuted — code bug) — For the spec's own end-to-end example
`{name:"Jo Doe", email:"jo@example.com", message:"Hello there"}` with no
phone, `model_dump()` still materialises the `phone` key with value
`None`, so `data.get('phone', 'N/A')` returns `None` (the default is
dead): the e-mail body embeds the four characters `None` — not the claimed
`N/A` — and the sheet row's phone cell carries `None` (JSON `null`), not
the claimed empty string. -/
theorem phone_absent_renders_none_not_na :
    (enrich ⟨"Jo Doe", "jo@example.com", "Hello there", none⟩ "1.2.3.4" "curl").getPhone
        (PyVal.str "N/A") = PyVal.none ∧
    send_email_html (enrich ⟨"Jo Doe", "jo@example.com", "Hello there", none⟩ "1.2.3.4" "curl") =
      "<p><strong>Name:</strong> Jo Doe</p><p><strong>Email:</strong> jo@example.com</p><p><strong>Phone:</strong> None</p><p><strong>Message:</strong><br/>Hello there</p><hr/><p><small>IP: 1.2.3.4 &middot; UA: curl</small></p>" ∧
    sheetRow ⟨0, 0⟩ (enrich ⟨"Jo Doe", "jo@example.com", "Hello there", none⟩ "1.2.3.4" "curl") =
      [PyVal.str "01-01-1970 05:30:00 AM", PyVal.str "Jo Doe", PyVal.str "jo@example.com",
        PyVal.none, PyVal.str "Hello there", PyVal.str "1.2.3.4", PyVal.str "curl"] ∧
    PyVal.none ≠ PyVal.str "" ∧ ("None" : String) ≠ "N/A" := by
  refine ⟨rfl, by decide, by decide, by decide, by decide⟩

/-- **C6** — `ensure_sheet_header` reads `Sheet1!A1:G1` and compares the
first row case-insensitively with the 7 canonical titles: on a
case-insensitive match it issues no write; on an empty or differing row it
overwrites the row with the canonical titles and then applies the bold +
background-shade formatting and the row freeze as a single `batchUpdate`
carrying both requests; and inside `append_to_sheet` all of this happens
before the data-row append. -/
theorem ensure_header_before_append (c : Clock) (env : SheetsEnv) (o : SheetsOracle)
    (d : EnrichedData) :
    (∀ row rest, o.getValues = Except.ok (some (row :: rest)) →
      row.map strLower = sheetHeaders.map strLower →
      ensure_sheet_header o = [SheetCall.valuesGet "Sheet1!A1:G1"]) ∧
    (∀ row rest, o.getValues = Except.ok (some (row :: rest)) →
      row.map strLower ≠ sheetHeaders.map strLower →
      o.update = Except.ok () → o.batchUpd = Except.ok () →
      ensure_sheet_header o =
        [SheetCall.valuesGet "Sheet1!A1:G1",
          SheetCall.valuesUpdate "Sheet1!A1:G1" [sheetHeaders],
          SheetCall.batchUpdate [BatchReq.formatHeaderBoldShaded, BatchReq.freezeRows 1]]) ∧
    (o.getValues = Except.ok none →
      o.update = Except.ok () → o.batchUpd = Except.ok () →
      ensure_sheet_header o =
        [SheetCall.valuesGet "Sheet1!A1:G1",
          SheetCall.valuesUpdate "Sheet1!A1:G1" [sheetHeaders],
          SheetCall.batchUpdate [BatchReq.formatHeaderBoldShaded, BatchReq.freezeRows 1]]) ∧
    (sheetsConfigured env = true → o.creds = Except.ok () → o.buildService = Except.ok () →
      append_to_sheet c env o d =
        ensure_sheet_header o ++ [SheetCall.valuesAppend "Sheet1!A1" [sheetRow c d]]) := by
  refine ⟨?_, ?_, ?_, ?_⟩
  · intro row rest hget hmatch
    have hrow : row ≠ [] := by
      intro hnil
      rw [hnil] at hmatch
      simp [sheetHeaders] at hmatch
    unfold ensure_sheet_header ensure_sheet_header_try
    rw [hget]
    cases row with
    | nil => exact absurd rfl hrow
    | cons a as => simp [ensure_sheet_header_afterRead, hmatch]
  · intro row rest hget hmatch hupd hbatch
    unfold ensure_sheet_header ensure_sheet_header_try
    rw [hget]
    simp [ensure_sheet_header_afterRead, hmatch, hupd, hbatch]
  · intro hget hupd hbatch
    unfold ensure_sheet_header ensure_sheet_header_try
    rw [hget]
    simp [ensure_sheet_header_afterRead, hupd, hbatch]
  · intro hcfg hcreds hbuild
    cases happ : o.append <;>
      simp [append_to_sheet, hcfg, append_to_sheet_try, hcreds, hbuild, happ,
        ensure_sheet_header]

/-- Witness for C6: a case-insensitively matching header row triggers no
write; the all-lower-case variant of the canonical titles counts as a
match. -/
theorem ensure_header_before_append_witness :
    ensure_sheet_header
      ⟨Except.ok (), Except.ok (),
        Except.ok (some [["timestamp", "name", "email", "phone", "message", "ip", "user agent"]]),
        Except.ok (), Except.ok (), Except.ok ()⟩ = [SheetCall.valuesGet "Sheet1!A1:G1"] :=
  (ensure_header_before_append ⟨0, 0⟩ ⟨some "id", some "ce", some "pk", some "pid"⟩
    ⟨Except.ok (), Except.ok (),
      Except.ok (some [["timestamp", "name", "email", "phone", "message", "ip", "user agent"]]),
      Except.ok (), Except.ok (), Except.ok ()⟩
    ⟨"Jo Doe", "jo@example.com", "Hello there", none, "1.2.3.4", "curl"⟩).1
    ["timestamp", "name", "email", "phone", "message", "ip", "user agent"] [] rfl (by decide)

/-! ## Timestamp lemmas -/

theorem data_mk (l : List Char) : (String.mk l).data = l := rfl

theorem dash_data : ("-" : String).data = ['-'] := rfl

theorem colon_data : (":" : String).data = [':'] := rfl

theorem space_data : (" " : String).data = [' '] := rfl

theorem am_data : ("AM" : String).data = ['A', 'M'] := rfl

theorem pm_data : ("PM" : String).data = ['P', 'M'] := rfl

theorem digitChar_isDigit (n : Nat) : isDigitChar (digitChar n) = true := by
  have h : n % 10 < 10 := Nat.mod_lt _ (by decide)
  have hall : ∀ k, k < 10 → isDigitChar (Char.ofNat (48 + k)) = true := by decide
  exact hall _ h

theorem digitChar_inj (a b : Nat) (h : digitChar a = digitChar b) : a % 10 = b % 10 := by
  have ha : a % 10 < 10 := Nat.mod_lt _ (by decide)
  have hb : b % 10 < 10 := Nat.mod_lt _ (by decide)
  have hall : ∀ x, x < 10 → ∀ y, y < 10 →
      Char.ofNat (48 + x) = Char.ofNat (48 + y) → x = y := by decide
  exact hall _ ha _ hb h

theorem strftimeDMY12_data (dt : PyDateTime) :
    (strftimeDMY12 dt).data =
      [digitChar (dt.day / 10), digitChar dt.day, '-',
        digitChar (dt.month / 10), digitChar dt.month, '-',
        digitChar (dt.year / 1000), digitChar (dt.year / 100),
        digitChar (dt.year / 10), digitChar dt.year, ' ',
        digitChar (hour12 dt.hour / 10), digitChar (hour12 dt.hour), ':',
        digitChar (dt.minute / 10), digitChar dt.minute, ':',
        digitChar (dt.second / 10), digitChar dt.second, ' '] ++ (ampm dt.hour).data := by
  simp [strftimeDMY12, pad2, pad4, String.data_append, data_mk, dash_data, colon_data,
    space_data]

/-- **C9** — Every output of `format_ist_timestamp` matches the pattern
`DD-MM-YYYY hh:mm:ss AM/PM` (zero-padded, AM/PM suffix), is computed from
the instant shifted into the Asia/Kolkata zone and is independent of the
host process time zone, and differs from one instant to the next — the
value is a function of "now", not a cached constant.  (The hypothesis
bounds the instant so that the year fits in 4 digits, the domain on which
the `%Y` embedding is faithful.) -/
theorem format_ist_timestamp_spec (t : Nat) (z1 z2 : Int) (ht : t ≤ 250000000000) :
    matchesTimestampPattern (format_ist_timestamp ⟨t, z1⟩) = true ∧
    format_ist_timestamp ⟨t, z1⟩ = format_ist_timestamp ⟨t, z2⟩ ∧
    format_ist_timestamp ⟨t + 1, z1⟩ ≠ format_ist_timestamp ⟨t, z1⟩ := by
  refine ⟨?_, rfl, ?_⟩
  · show matchesTimestampPattern (strftimeDMY12 (datetimeInZone t 19800)) = true
    by_cases hh : (datetimeInZone t 19800).hour < 12
    · simp [matchesTimestampPattern, strftimeDMY12_data, ampm, hh, am_data,
        digitChar_isDigit]
    · simp [matchesTimestampPattern, strftimeDMY12_data, ampm, hh, pm_data,
        digitChar_isDigit]
  · intro heq
    have h2 := congrArg String.data heq
    simp only [format_ist_timestamp, strftimeDMY12_data] at h2
    simp only [List.cons_append, List.nil_append, List.cons.injEq, eq_self_iff_true,
      true_and, and_true] at h2
    obtain ⟨hd1, hd2, hm1, hm2, hy1, hy2, hy3, hy4, hh1, hh2, hn1, hn2, hs1, hs2, hap⟩ := h2
    have e1 := digitChar_inj _ _ hs1
    have e2 := digitChar_inj _ _ hs2
    simp only [datetimeInZone] at e1 e2
    omega

/-- Witness for C9 at the epoch instant and two different host zones. -/
theorem format_ist_timestamp_spec_witness :
    matchesTimestampPattern (format_ist_timestamp ⟨0, 0⟩) = true ∧
    format_ist_timestamp ⟨0, 0⟩ = format_ist_timestamp ⟨0, 60⟩ ∧
    format_ist_timestamp ⟨0 + 1, 0⟩ ≠ format_ist_timestamp ⟨0, 0⟩ :=
  format_ist_timestamp_spec 0 0 60 (by omega)

end OmkarContact
